import Mathlib

/-!
Formal model of the authentication backend (src/main.py, src/schemas.py).

The core logic is embedded as pure Lean functions.  External collaborators
are made explicit parameters:

* the SHA-256 hex digest primitive from hashlib is a function parameter
  sha256Hex : String → String (the code computes
  hashlib.sha256(x.encode()).hexdigest());
* the entropy source behind secrets.token_hex and secrets.token_urlsafe is
  passed as a list of random bytes, and the encoders themselves (hex,
  padding-stripped url-safe base64) are defined below;
* the MongoDB handle is modelled as an explicit state DBState holding the
  two collections used by the code, "user" and "session", plus a counter
  that stands for ObjectId generation; find_one on an email filter is a
  first-match scan, insert_one appends;
* calls to datetime.now(timezone.utc) are passed in as numeric timestamps,
  one per call site.

Python str.split on the single separator character given in the code is
modelled by splitChar below, and tuple unpacking of the result into exactly
two names (which raises on any other arity) is modelled by matching the
resulting list against a two-element pattern.
-/

/-- One hexadecimal digit, lowercase, as produced by bytes.hex() in Python. -/
def hexDigitChar (n : Nat) : Char :=
  if n < 10 then Char.ofNat (48 + n) else Char.ofNat (87 + n)

/-- Hex encoding of a byte list, two lowercase digits per byte. -/
def bytesToHexList : List Nat → List Char
  | [] => []
  | b :: bs => hexDigitChar (b / 16) :: hexDigitChar (b % 16) :: bytesToHexList bs

/-- Model of secrets.token_hex applied to the random bytes drawn from the
entropy source: the hex encoding of those bytes.  The call in the code is
secrets.token_hex(16), so the entropy list has 16 bytes there. -/
def token_hex (entropy : List Nat) : String :=
  ⟨bytesToHexList entropy⟩

/-- One character of the url-safe base64 alphabet: A-Z, a-z, 0-9, dash,
underscore. -/
def b64urlChar (n : Nat) : Char :=
  if n < 26 then Char.ofNat (65 + n)
  else if n < 52 then Char.ofNat (97 + (n - 26))
  else if n < 62 then Char.ofNat (48 + (n - 52))
  else if n = 62 then Char.ofNat 45
  else Char.ofNat 95

/-- Padding-stripped url-safe base64 of a byte list, as produced by
base64.urlsafe_b64encode with the trailing padding removed, which is what
secrets.token_urlsafe returns. -/
def base64urlChars : List Nat → List Char
  | [] => []
  | [b1] => [b64urlChar (b1 / 4), b64urlChar (b1 % 4 * 16)]
  | [b1, b2] => [b64urlChar (b1 / 4), b64urlChar (b1 % 4 * 16 + b2 / 16),
      b64urlChar (b2 % 16 * 4)]
  | b1 :: b2 :: b3 :: rest =>
      b64urlChar (b1 / 4) :: b64urlChar (b1 % 4 * 16 + b2 / 16) ::
      b64urlChar (b2 % 16 * 4 + b3 / 64) :: b64urlChar (b3 % 64) ::
      base64urlChars rest

/-- Model of secrets.token_urlsafe applied to the random bytes drawn from
the entropy source.  The calls in the code are secrets.token_urlsafe(32),
so the entropy list has 32 bytes there. -/
def token_urlsafe (entropy : List Nat) : String :=
  ⟨base64urlChars entropy⟩

/-- Model of Python str.split with a one-character separator: every
occurrence of the separator splits, adjacent separators yield empty
fields, and the empty input yields one empty field. -/
def splitChar (sep : Char) : List Char → List (List Char)
  | [] => [[]]
  | c :: cs =>
    if c = sep then [] :: splitChar sep cs
    else
      match splitChar sep cs with
      | [] => [[c]]
      | g :: gs => (c :: g) :: gs

/-- The split performed by login: user["password_hash"].split on the colon
separator. -/
def pySplitColon (s : String) : List String :=
  (splitChar (Char.ofNat 58) s.data).map String.mk

/-- hash_password from main.py.  sha256Hex stands for the hashlib digest;
freshSalt is the value secrets.token_hex(16) would return (used only when
no salt is supplied).  Returns the pair (hashed, salt) in source order. -/
def hash_password (sha256Hex : String → String) (password : String)
    (salt : Option String) (freshSalt : String) : String × String :=
  let s := match salt with
    | none => freshSalt
    | some s0 => s0
  (sha256Hex (s ++ password), s)

/-- verify_password from main.py: recompute the digest over salt followed
by password and compare with the stored hash. -/
def verify_password (sha256Hex : String → String)
    (password hashed salt : String) : Bool :=
  sha256Hex (salt ++ password) == hashed

/-- Signup request body (main.py SignupRequest). -/
structure SignupRequest where
  name : String
  email : String
  password : String
  field_of_study : Option String
deriving DecidableEq

/-- Login request body (main.py LoginRequest). -/
structure LoginRequest where
  email : String
  password : String
deriving DecidableEq

/-- A document of the "user" collection as written by signup: the fields of
user_doc in main.py, plus the store-assigned identity. -/
structure UserDoc where
  _id : Nat
  name : String
  email : String
  password_hash : String
  field_of_study : Option String
  interests : List String
  is_active : Bool
  created_at : Nat
  updated_at : Nat
deriving DecidableEq

/-- A document of the "session" collection as written by signup and login. -/
structure SessionDoc where
  user_id : String
  token : String
  created_at : Nat
deriving DecidableEq

/-- The database state: the two collections the auth flows touch, plus the
counter standing for ObjectId generation on insert. -/
structure DBState where
  users : List UserDoc
  sessions : List SessionDoc
  nextId : Nat
deriving DecidableEq

/-- An error reported by the store itself on insert (a duplicate-key
violation raised by the driver). -/
inductive StoreError where
  | duplicateKey
deriving DecidableEq

/-- The user projection returned in the response body: exactly id, name and
email, as in the two return statements of main.py. -/
structure UserProjection where
  id : String
  name : String
  email : String
deriving DecidableEq

/-- A successful response body: message, token and the user projection. -/
structure AuthResponse where
  message : String
  token : String
  user : UserProjection
deriving DecidableEq

/-- Outcome of a request: a 200 body, a raised HTTPException with status and
detail, or an exception from the store that no handler in the endpoint
catches. -/
inductive AuthOutcome where
  | ok (resp : AuthResponse)
  | httpError (status : Nat) (detail : String)
  | unhandledStoreError (e : StoreError)
deriving DecidableEq

/-- db["user"].find_one on an email filter: the first document in natural
order whose email field equals the filter value. -/
def find_one_email (users : List UserDoc) (email : String) : Option UserDoc :=
  users.find? (fun u => u.email == email)

/-- signup from main.py at the granularity of individual store calls: the
result of db["user"].insert_one is an explicit argument insertRes, so that
the behaviour when the store itself reports a duplicate key can be stated.
The source wraps no try/except around the insert, so a store error there
propagates out of the endpoint uncaught.  saltEntropy and tokenEntropy are
the random bytes behind secrets.token_hex(16) and secrets.token_urlsafe(32);
t1, t2, t3 are the three datetime.now(timezone.utc) call results in source
order (created_at, updated_at, session created_at). -/
def signupOracle (sha256Hex : String → String) (st : DBState)
    (payload : SignupRequest) (saltEntropy : List Nat)
    (insertRes : Except StoreError Nat) (tokenEntropy : List Nat)
    (t1 t2 t3 : Nat) : AuthOutcome × DBState :=
  match find_one_email st.users payload.email with
  | some _ => (.httpError 400 "Email already registered", st)
  | none =>
    let hs := hash_password sha256Hex payload.password none (token_hex saltEntropy)
    let hashed := hs.1
    let salt := hs.2
    match insertRes with
    | .error e => (.unhandledStoreError e, st)
    | .ok user_id =>
      let user_doc : UserDoc :=
        { _id := user_id
          name := payload.name
          email := payload.email
          password_hash := salt ++ ":" ++ hashed
          field_of_study := payload.field_of_study
          interests := []
          is_active := true
          created_at := t1
          updated_at := t2 }
      let st1 : DBState :=
        { st with users := st.users ++ [user_doc], nextId := user_id + 1 }
      let token := token_urlsafe tokenEntropy
      let session_doc : SessionDoc :=
        { user_id := toString user_id, token := token, created_at := t3 }
      let st2 : DBState := { st1 with sessions := st1.sessions ++ [session_doc] }
      (.ok { message := "Signup successful"
             token := token
             user := { id := toString user_id, name := payload.name,
                       email := payload.email } }, st2)

/-- signup from main.py run against the store state itself: the insert
succeeds and assigns the next identity. -/
def signup (sha256Hex : String → String) (st : DBState)
    (payload : SignupRequest) (saltEntropy tokenEntropy : List Nat)
    (t1 t2 t3 : Nat) : AuthOutcome × DBState :=
  signupOracle sha256Hex st payload saltEntropy (.ok st.nextId) tokenEntropy t1 t2 t3

/-- login from main.py.  tokenEntropy is the randomness behind
secrets.token_urlsafe(32); t is the datetime.now(timezone.utc) result used
for the session record. -/
def login (sha256Hex : String → String) (st : DBState) (payload : LoginRequest)
    (tokenEntropy : List Nat) (t : Nat) : AuthOutcome × DBState :=
  match find_one_email st.users payload.email with
  | none => (.httpError 401 "Invalid credentials", st)
  | some user =>
    match pySplitColon user.password_hash with
    | [salt, stored_hash] =>
      if verify_password sha256Hex payload.password stored_hash salt then
        let token := token_urlsafe tokenEntropy
        let session_doc : SessionDoc :=
          { user_id := toString user._id, token := token, created_at := t }
        let st1 : DBState := { st with sessions := st.sessions ++ [session_doc] }
        (.ok { message := "Login successful"
               token := token
               user := { id := toString user._id, name := user.name,
                         email := user.email } }, st1)
      else (.httpError 401 "Invalid credentials", st)
    | _ => (.httpError 500 "Stored password format invalid", st)

/-! Helper lemmas about the encoders, the split and the store scan. -/

/-- Length of the padding-stripped base64 encoding. -/
theorem base64urlChars_length : ∀ bs : List Nat,
    (base64urlChars bs).length = (4 * bs.length + 2) / 3
  | [] => by simp [base64urlChars]
  | [b1] => by simp [base64urlChars]
  | [b1, b2] => by simp [base64urlChars]
  | b1 :: b2 :: b3 :: rest => by
    have ih := base64urlChars_length rest
    simp only [base64urlChars, List.length_cons, ih]
    omega

/-- Length of the hex encoding: two characters per byte. -/
theorem bytesToHexList_length : ∀ bs : List Nat,
    (bytesToHexList bs).length = 2 * bs.length
  | [] => by simp [bytesToHexList]
  | b :: bs => by
    have ih := bytesToHexList_length bs
    simp only [bytesToHexList, List.length_cons, ih]
    omega

/-- A lowercase hex digit character: one of 0-9 or a-f. -/
def isHexLower (c : Char) : Bool :=
  (48 ≤ c.toNat && c.toNat ≤ 57) || (97 ≤ c.toNat && c.toNat ≤ 102)

theorem hexDigitChar_isHexLower {n : Nat} (h : n < 16) :
    isHexLower (hexDigitChar n) = true := by
  interval_cases n <;> decide

theorem hexDigitChar_ne_colon {n : Nat} (h : n < 16) :
    hexDigitChar n ≠ Char.ofNat 58 := by
  interval_cases n <;> decide

theorem bytesToHexList_isHexLower : ∀ bs : List Nat, (∀ b ∈ bs, b < 256) →
    ∀ c ∈ bytesToHexList bs, isHexLower c = true
  | [], _, c, hc => by simp [bytesToHexList] at hc
  | b :: bs, hb, c, hc => by
    simp only [bytesToHexList, List.mem_cons] at hc
    have hlt : b < 256 := hb b (List.mem_cons_self b bs)
    rcases hc with rfl | hc
    · exact hexDigitChar_isHexLower (Nat.div_lt_of_lt_mul (by omega))
    rcases hc with rfl | hc
    · exact hexDigitChar_isHexLower (Nat.mod_lt b (by omega))
    · exact bytesToHexList_isHexLower bs
        (fun x hx => hb x (List.mem_cons_of_mem b hx)) c hc

theorem bytesToHexList_no_colon (bs : List Nat) (hb : ∀ b ∈ bs, b < 256) :
    Char.ofNat 58 ∉ bytesToHexList bs := by
  intro hmem
  have := bytesToHexList_isHexLower bs hb _ hmem
  simp [isHexLower] at this

/-- A separator-free list splits into a single field. -/
theorem splitChar_not_mem {sep : Char} : ∀ {l : List Char}, sep ∉ l →
    splitChar sep l = [l]
  | [], _ => rfl
  | c :: cs, h => by
    have hc : ¬ c = sep := fun hh => h (hh ▸ List.mem_cons_self c cs)
    have ih := splitChar_not_mem (l := cs) (fun hm => h (List.mem_cons_of_mem c hm))
    simp [splitChar, hc, ih]

/-- Splitting at the first separator occurrence. -/
theorem splitChar_append {sep : Char} : ∀ {a : List Char} (b : List Char),
    sep ∉ a → splitChar sep (a ++ sep :: b) = a :: splitChar sep b
  | [], b, _ => by simp [splitChar]
  | c :: a, b, h => by
    have hc : ¬ c = sep := fun hh => h (hh ▸ List.mem_cons_self c a)
    have ih := splitChar_append (a := a) b (fun hm => h (List.mem_cons_of_mem c hm))
    simp [splitChar, hc, ih]

/-- The stored credential format salt-colon-hash parses back into exactly
the salt and the hash when neither part contains a colon. -/
theorem pySplitColon_format (salt hash : String)
    (hs : Char.ofNat 58 ∉ salt.data) (hh : Char.ofNat 58 ∉ hash.data) :
    pySplitColon (salt ++ ":" ++ hash) = [salt, hash] := by
  have hdata : (salt ++ ":" ++ hash).data = salt.data ++ Char.ofNat 58 :: hash.data := by
    simp [String.data_append]
  simp only [pySplitColon, hdata, splitChar_append hash.data hs,
    splitChar_not_mem hh, List.map_cons, List.map_nil]

/-- Appending a matching document to a collection with no prior match makes
the scan return that document. -/
theorem find_one_email_append (users : List UserDoc) (u : UserDoc)
    (email : String) (h : find_one_email users email = none)
    (hu : u.email = email) :
    find_one_email (users ++ [u]) email = some u := by
  induction users with
  | nil => simp [find_one_email, List.find?, hu]
  | cons v vs ih =>
    simp only [find_one_email, List.find?, List.cons_append] at h ⊢
    cases hv : (v.email == email) with
    | true => simp [hv] at h
    | false =>
      simp only [hv] at h ⊢
      exact ih h

/-- The full behaviour of signup on a fresh email: the one theorem the
success-path claims instantiate. -/
theorem signup_fresh_spec (sha256Hex : String → String) (st : DBState)
    (payload : SignupRequest) (saltEntropy tokenEntropy : List Nat)
    (t1 t2 t3 : Nat)
    (h : find_one_email st.users payload.email = none) :
    signup sha256Hex st payload saltEntropy tokenEntropy t1 t2 t3 =
      (.ok { message := "Signup successful"
             token := token_urlsafe tokenEntropy
             user := { id := toString st.nextId, name := payload.name,
                       email := payload.email } },
       { users := st.users ++
           [{ _id := st.nextId
              name := payload.name
              email := payload.email
              password_hash := token_hex saltEntropy ++ ":" ++
                sha256Hex (token_hex saltEntropy ++ payload.password)
              field_of_study := payload.field_of_study
              interests := []
              is_active := true
              created_at := t1
              updated_at := t2 }]
         sessions := st.sessions ++
           [{ user_id := toString st.nextId
              token := token_urlsafe tokenEntropy
              created_at := t3 }]
         nextId := st.nextId + 1 }) := by
  simp [signup, signupOracle, h, hash_password]

/-- Claim C1: for every password p and every salt s, hashing p with s and
then verifying p against the resulting digest with the same salt returns
true. -/
theorem hash_then_verify_roundtrip (sha256Hex : String → String)
    (p s freshSalt : String) :
    verify_password sha256Hex p (hash_password sha256Hex p (some s) freshSalt).1 s = true := by
  simp [verify_password, hash_password]

/-- Claim C9: hash_password with a supplied salt is deterministic and
returns the supplied salt unchanged as its second component; its first
component is the digest of salt followed by password, independent of the
fresh-salt input. -/
theorem hash_password_deterministic (sha256Hex : String → String)
    (p s freshSalt1 freshSalt2 : String) :
    hash_password sha256Hex p (some s) freshSalt1 = (sha256Hex (s ++ p), s) ∧
    hash_password sha256Hex p (some s) freshSalt1 =
      hash_password sha256Hex p (some s) freshSalt2 :=
  ⟨rfl, rfl⟩

/-! Concrete sample values used to instantiate the theorems. -/

/-- A stand-in for the digest primitive at concrete inputs: a constant
hex string. -/
def sampleSha (_s : String) : String := "ffff"

/-- A stored user document whose credential parses as salt "s" and
hash "h". -/
def adaUser : UserDoc :=
  ⟨0, "Ada", "ada@example.com", "s:h", none, [], true, 0, 0⟩

/-- A stored user document with a malformed credential field (no colon). -/
def coraUser : UserDoc :=
  ⟨0, "Cora", "cora@example.com", "nocolon", none, [], true, 0, 0⟩

/-- The empty store. -/
def emptyDB : DBState := ⟨[], [], 0⟩

/-- Claim C2: signup with an email that already has a user document fails
with 400 "Email already registered" and leaves the store unchanged, so no
new user document and no new session document is created. -/
theorem signup_duplicate_email (sha256Hex : String → String) (st : DBState)
    (payload : SignupRequest) (saltEntropy tokenEntropy : List Nat)
    (t1 t2 t3 : Nat) (u : UserDoc)
    (h : find_one_email st.users payload.email = some u) :
    signup sha256Hex st payload saltEntropy tokenEntropy t1 t2 t3 =
      (.httpError 400 "Email already registered", st) := by
  simp [signup, signupOracle, h]

/-- Witness for claim C2 at a concrete store and request. -/
theorem signup_duplicate_email_witness :
    signup sampleSha ⟨[adaUser], [], 1⟩ ⟨"Eve", "ada@example.com", "pw", none⟩
        [] [] 5 6 7 =
      (.httpError 400 "Email already registered", ⟨[adaUser], [], 1⟩) :=
  signup_duplicate_email sampleSha ⟨[adaUser], [], 1⟩
    ⟨"Eve", "ada@example.com", "pw", none⟩ [] [] 5 6 7 adaUser (by decide)

/-- Claim C3: login answers with the same 401 "Invalid credentials" both
when the email has no user document and when the email resolves to a user
whose parsed credential rejects the supplied password; in both cases the
store is unchanged, so no session document is created. -/
theorem login_invalid_credentials (sha256Hex : String → String) (st : DBState)
    (payload : LoginRequest) (tokenEntropy : List Nat) (t : Nat) :
    (find_one_email st.users payload.email = none →
      login sha256Hex st payload tokenEntropy t =
        (.httpError 401 "Invalid credentials", st)) ∧
    (∀ u salt storedHash,
      find_one_email st.users payload.email = some u →
      pySplitColon u.password_hash = [salt, storedHash] →
      verify_password sha256Hex payload.password storedHash salt = false →
      login sha256Hex st payload tokenEntropy t =
        (.httpError 401 "Invalid credentials", st)) := by
  constructor
  · intro h
    simp [login, h]
  · intro u salt storedHash hu hsplit hv
    simp [login, hu, hsplit, hv]

/-- Witness for claim C3: the unknown-email case and the wrong-password
case at concrete stores, both yielding the same 401 response. -/
theorem login_invalid_credentials_witness :
    login sampleSha emptyDB ⟨"nobody@example.com", "pw"⟩ [] 0 =
      (.httpError 401 "Invalid credentials", emptyDB) ∧
    login sampleSha ⟨[adaUser], [], 1⟩ ⟨"ada@example.com", "wrong"⟩ [] 0 =
      (.httpError 401 "Invalid credentials", ⟨[adaUser], [], 1⟩) :=
  ⟨(login_invalid_credentials sampleSha emptyDB ⟨"nobody@example.com", "pw"⟩ [] 0).1
     (by decide),
   (login_invalid_credentials sampleSha ⟨[adaUser], [], 1⟩
       ⟨"ada@example.com", "wrong"⟩ [] 0).2 adaUser "s" "h"
     (by decide) (by decide) (by decide)⟩

/-- Claim C4 counterexample: at a concrete request where the email scan
finds nothing but the store insert reports a duplicate key, signup does
not fail with 400 "Email already registered": the store error leaves the
endpoint uncaught. -/
theorem signup_race_counterexample :
    signupOracle sampleSha emptyDB ⟨"Ada", "ada@example.com", "secret123", none⟩
        [] (.error .duplicateKey) [] 0 0 0 =
      (.unhandledStoreError .duplicateKey, emptyDB) ∧
    signupOracle sampleSha emptyDB ⟨"Ada", "ada@example.com", "secret123", none⟩
        [] (.error .duplicateKey) [] 0 0 0 ≠
      (.httpError 400 "Email already registered", emptyDB) := by
  exact ⟨by decide, by decide⟩

/-- Claim C4 amended: when the email scan finds no user but the store
insert itself reports a duplicate key, signup propagates the store error
uncaught (an internal failure), not the 400 "Email already registered"
response, and the store is unchanged. -/
theorem signup_race_unhandled (sha256Hex : String → String) (st : DBState)
    (payload : SignupRequest) (saltEntropy tokenEntropy : List Nat)
    (t1 t2 t3 : Nat) (e : StoreError)
    (h : find_one_email st.users payload.email = none) :
    signupOracle sha256Hex st payload saltEntropy (.error e) tokenEntropy t1 t2 t3 =
      (.unhandledStoreError e, st) ∧
    AuthOutcome.unhandledStoreError e ≠ .httpError 400 "Email already registered" := by
  refine ⟨?_, by simp⟩
  simp [signupOracle, h]

/-- Witness for the amended claim C4 at a concrete request. -/
theorem signup_race_unhandled_witness :
    signupOracle sampleSha emptyDB ⟨"Bea", "bea@example.com", "pw", none⟩
        [] (.error .duplicateKey) [] 1 2 3 =
      (.unhandledStoreError .duplicateKey, emptyDB) ∧
    AuthOutcome.unhandledStoreError .duplicateKey ≠
      .httpError 400 "Email already registered" :=
  signup_race_unhandled sampleSha emptyDB ⟨"Bea", "bea@example.com", "pw", none⟩
    [] [] 1 2 3 .duplicateKey (by decide)

/-- The full behaviour of login when the email resolves, the credential
parses and the password verifies: the success path. -/
theorem login_success_spec (sha256Hex : String → String) (st : DBState)
    (payload : LoginRequest) (tokenEntropy : List Nat) (t : Nat)
    (u : UserDoc) (salt storedHash : String)
    (hu : find_one_email st.users payload.email = some u)
    (hsplit : pySplitColon u.password_hash = [salt, storedHash])
    (hv : verify_password sha256Hex payload.password storedHash salt = true) :
    login sha256Hex st payload tokenEntropy t =
      (.ok { message := "Login successful"
             token := token_urlsafe tokenEntropy
             user := { id := toString u._id, name := u.name, email := u.email } },
       { st with sessions := st.sessions ++
           [{ user_id := toString u._id
              token := token_urlsafe tokenEntropy
              created_at := t }] }) := by
  simp [login, hu, hsplit, hv]

/-- Claim C5: when login finds a user document, a stored credential that
does not split into exactly two colon-separated parts fails with 500
"Stored password format invalid" (an error distinct from the 401
"Invalid credentials") and leaves the store unchanged; when the
credential does split into exactly two parts, that error is never the
outcome. -/
theorem login_corrupt_credential (sha256Hex : String → String) (st : DBState)
    (payload : LoginRequest) (tokenEntropy : List Nat) (t : Nat) (u : UserDoc)
    (hu : find_one_email st.users payload.email = some u) :
    (AuthOutcome.httpError 500 "Stored password format invalid" ≠
      .httpError 401 "Invalid credentials") ∧
    ((∀ salt storedHash, pySplitColon u.password_hash ≠ [salt, storedHash]) →
      login sha256Hex st payload tokenEntropy t =
        (.httpError 500 "Stored password format invalid", st)) ∧
    (∀ salt storedHash, pySplitColon u.password_hash = [salt, storedHash] →
      (login sha256Hex st payload tokenEntropy t).1 ≠
        .httpError 500 "Stored password format invalid") := by
  refine ⟨by decide, ?_, ?_⟩
  · intro hm
    cases hsp : pySplitColon u.password_hash with
    | nil => simp [login, hu, hsp]
    | cons a l =>
      cases l with
      | nil => simp [login, hu, hsp]
      | cons b l2 =>
        cases l2 with
        | nil => exact absurd hsp (hm a b)
        | cons c l3 => simp [login, hu, hsp]
  · intro salt storedHash hsp
    cases hv : verify_password sha256Hex payload.password storedHash salt <;>
      simp [login, hu, hsp, hv]

/-- Witness for claim C5 at a concrete store whose stored credential has
no colon. -/
theorem login_corrupt_credential_witness :
    login sampleSha ⟨[coraUser], [], 1⟩ ⟨"cora@example.com", "pw"⟩ [] 0 =
      (.httpError 500 "Stored password format invalid", ⟨[coraUser], [], 1⟩) :=
  (login_corrupt_credential sampleSha ⟨[coraUser], [], 1⟩
      ⟨"cora@example.com", "pw"⟩ [] 0 coraUser (by decide)).2.1
    (fun salt storedHash hc => by
      rw [show pySplitColon coraUser.password_hash = ["nocolon"] by decide] at hc
      simp at hc)

/-- Claim C6: a successful signup stores the credential as the single
string salt-colon-hash, where the salt is the hex encoding of the 16
random bytes drawn for it (so 32 lowercase hex characters) and the hash
is the digest of salt concatenated with the password. -/
theorem signup_credential_format (sha256Hex : String → String) (st : DBState)
    (payload : SignupRequest) (saltEntropy tokenEntropy : List Nat)
    (t1 t2 t3 : Nat)
    (h : find_one_email st.users payload.email = none)
    (hlen : saltEntropy.length = 16) (hbytes : ∀ b ∈ saltEntropy, b < 256) :
    (signup sha256Hex st payload saltEntropy tokenEntropy t1 t2 t3).2.users =
      st.users ++
        [{ _id := st.nextId
           name := payload.name
           email := payload.email
           password_hash := token_hex saltEntropy ++ ":" ++
             sha256Hex (token_hex saltEntropy ++ payload.password)
           field_of_study := payload.field_of_study
           interests := []
           is_active := true
           created_at := t1
           updated_at := t2 }] ∧
    (token_hex saltEntropy).length = 32 ∧
    (token_hex saltEntropy).data.all isHexLower = true := by
  refine ⟨?_, ?_, ?_⟩
  · rw [signup_fresh_spec sha256Hex st payload saltEntropy tokenEntropy t1 t2 t3 h]
  · have h0 : (token_hex saltEntropy).length = (bytesToHexList saltEntropy).length := rfl
    rw [h0, bytesToHexList_length, hlen]
  · exact List.all_eq_true.mpr (bytesToHexList_isHexLower saltEntropy hbytes)

/-- Witness for claim C6 at concrete entropy bytes and a concrete
request. -/
theorem signup_credential_format_witness :
    (signup sampleSha emptyDB ⟨"Ada", "ada@example.com", "secret123", none⟩
        (List.range 16) [] 1 2 3).2.users =
      emptyDB.users ++
        [{ _id := emptyDB.nextId
           name := "Ada"
           email := "ada@example.com"
           password_hash := token_hex (List.range 16) ++ ":" ++
             sampleSha (token_hex (List.range 16) ++ "secret123")
           field_of_study := none
           interests := []
           is_active := true
           created_at := 1
           updated_at := 2 }] ∧
    (token_hex (List.range 16)).length = 32 ∧
    (token_hex (List.range 16)).data.all isHexLower = true :=
  signup_credential_format sampleSha emptyDB
    ⟨"Ada", "ada@example.com", "secret123", none⟩ (List.range 16) [] 1 2 3
    (by decide) (by decide) (by decide)

/-- A stored user document whose credential verifies against password "pw"
under the sample digest. -/
def hexUser : UserDoc :=
  ⟨0, "Hex", "hex@example.com", "s:ffff", none, [], true, 0, 0⟩

/-- Claim C7: with 32 bytes of entropy behind it, the issued token is 43
characters of url-safe base64 (hence at least 32 characters); on signup
and on a verified login a session document holding that token, the string
form of the user identity and the supplied timestamp is appended to the
session collection, and the response carries the same token. -/
theorem session_token_shape (sha256Hex : String → String) (st : DBState)
    (payload : SignupRequest) (lpayload : LoginRequest)
    (saltEntropy tokenEntropy : List Nat) (t1 t2 t3 t : Nat)
    (hlen : tokenEntropy.length = 32) :
    ((token_urlsafe tokenEntropy).length = 43 ∧
      32 ≤ (token_urlsafe tokenEntropy).length) ∧
    (find_one_email st.users payload.email = none →
      (signup sha256Hex st payload saltEntropy tokenEntropy t1 t2 t3).2.sessions =
        st.sessions ++
          [{ user_id := toString st.nextId
             token := token_urlsafe tokenEntropy
             created_at := t3 }] ∧
      (signup sha256Hex st payload saltEntropy tokenEntropy t1 t2 t3).1 =
        .ok { message := "Signup successful"
              token := token_urlsafe tokenEntropy
              user := { id := toString st.nextId, name := payload.name,
                        email := payload.email } }) ∧
    (∀ u salt storedHash,
      find_one_email st.users lpayload.email = some u →
      pySplitColon u.password_hash = [salt, storedHash] →
      verify_password sha256Hex lpayload.password storedHash salt = true →
      (login sha256Hex st lpayload tokenEntropy t).2.sessions =
        st.sessions ++
          [{ user_id := toString u._id
             token := token_urlsafe tokenEntropy
             created_at := t }] ∧
      (login sha256Hex st lpayload tokenEntropy t).1 =
        .ok { message := "Login successful"
              token := token_urlsafe tokenEntropy
              user := { id := toString u._id, name := u.name,
                        email := u.email } }) := by
  have hlen43 : (token_urlsafe tokenEntropy).length = 43 := by
    have h0 : (token_urlsafe tokenEntropy).length = (base64urlChars tokenEntropy).length := rfl
    rw [h0, base64urlChars_length, hlen]
  refine ⟨⟨hlen43, by omega⟩, ?_, ?_⟩
  · intro h
    rw [signup_fresh_spec sha256Hex st payload saltEntropy tokenEntropy t1 t2 t3 h]
    exact ⟨rfl, rfl⟩
  · intro u salt storedHash hu hsplit hv
    rw [login_success_spec sha256Hex st lpayload tokenEntropy t u salt storedHash hu hsplit hv]
    exact ⟨rfl, rfl⟩

/-- Witness for claim C7: the token length facts plus the signup-path and
login-path session records at a concrete store. -/
theorem session_token_shape_witness :
    ((token_urlsafe (List.range 32)).length = 43 ∧
      32 ≤ (token_urlsafe (List.range 32)).length) ∧
    (signup sampleSha ⟨[hexUser], [], 1⟩ ⟨"Ada", "ada@example.com", "pw", none⟩
        [] (List.range 32) 1 2 3).2.sessions =
      [{ user_id := toString (1 : Nat)
         token := token_urlsafe (List.range 32)
         created_at := 3 }] ∧
    (login sampleSha ⟨[hexUser], [], 1⟩ ⟨"hex@example.com", "pw"⟩
        (List.range 32) 7).2.sessions =
      [{ user_id := toString (0 : Nat)
         token := token_urlsafe (List.range 32)
         created_at := 7 }] := by
  have h := session_token_shape sampleSha ⟨[hexUser], [], 1⟩
    ⟨"Ada", "ada@example.com", "pw", none⟩ ⟨"hex@example.com", "pw"⟩
    [] (List.range 32) 1 2 3 7 (by decide)
  exact ⟨h.1, (h.2.1 (by decide)).1,
    (h.2.2 hexUser "s" "ffff" (by decide) (by decide) (by decide)).1⟩

/-- Claim C8: signup on a fresh email succeeds with the full response and
store transition: exactly one user document is appended (empty interests,
active flag true, the two supplied creation and update timestamps) and
exactly one session document is appended whose user_id is the string form
of the new identity; the response carries the token and the projection of
exactly id, name and email. -/
theorem signup_fresh_email_success (sha256Hex : String → String) (st : DBState)
    (payload : SignupRequest) (saltEntropy tokenEntropy : List Nat)
    (t1 t2 t3 : Nat)
    (h : find_one_email st.users payload.email = none) :
    signup sha256Hex st payload saltEntropy tokenEntropy t1 t2 t3 =
      (.ok { message := "Signup successful"
             token := token_urlsafe tokenEntropy
             user := { id := toString st.nextId, name := payload.name,
                       email := payload.email } },
       { users := st.users ++
           [{ _id := st.nextId
              name := payload.name
              email := payload.email
              password_hash := token_hex saltEntropy ++ ":" ++
                sha256Hex (token_hex saltEntropy ++ payload.password)
              field_of_study := payload.field_of_study
              interests := []
              is_active := true
              created_at := t1
              updated_at := t2 }]
         sessions := st.sessions ++
           [{ user_id := toString st.nextId
              token := token_urlsafe tokenEntropy
              created_at := t3 }]
         nextId := st.nextId + 1 }) :=
  signup_fresh_spec sha256Hex st payload saltEntropy tokenEntropy t1 t2 t3 h

/-- Witness for claim C8 at a concrete request against the empty store. -/
theorem signup_fresh_email_success_witness :
    signup sampleSha emptyDB ⟨"Ada", "ada@example.com", "secret123", none⟩
        [] [] 1 2 3 =
      (.ok { message := "Signup successful"
             token := token_urlsafe []
             user := { id := toString (0 : Nat), name := "Ada",
                       email := "ada@example.com" } },
       { users := [{ _id := 0
                     name := "Ada"
                     email := "ada@example.com"
                     password_hash := token_hex [] ++ ":" ++
                       sampleSha (token_hex [] ++ "secret123")
                     field_of_study := none
                     interests := []
                     is_active := true
                     created_at := 1
                     updated_at := 2 }]
         sessions := [{ user_id := toString (0 : Nat)
                        token := token_urlsafe []
                        created_at := 3 }]
         nextId := 1 }) :=
  signup_fresh_email_success sampleSha emptyDB
    ⟨"Ada", "ada@example.com", "secret123", none⟩ [] [] 1 2 3 (by decide)

/-- Claim C10: the core imposes no non-emptiness condition on passwords:
signup with the empty password on a fresh email succeeds, and a following
login for that email with the empty password succeeds against the store
the signup produced.  The digest parameter is assumed colon-free (as a
hex digest is) and the salt entropy values are bytes. -/
theorem signup_then_login_empty_password (sha256Hex : String → String)
    (st : DBState) (nm email : String) (fos : Option String)
    (saltEntropy tokenEntropy1 tokenEntropy2 : List Nat) (t1 t2 t3 t4 : Nat)
    (hsha : ∀ s, Char.ofNat 58 ∉ (sha256Hex s).data)
    (hbytes : ∀ b ∈ saltEntropy, b < 256)
    (h : find_one_email st.users email = none) :
    (signup sha256Hex st ⟨nm, email, "", fos⟩ saltEntropy tokenEntropy1 t1 t2 t3).1 =
      .ok { message := "Signup successful"
            token := token_urlsafe tokenEntropy1
            user := { id := toString st.nextId, name := nm, email := email } } ∧
    (login sha256Hex
        (signup sha256Hex st ⟨nm, email, "", fos⟩ saltEntropy tokenEntropy1 t1 t2 t3).2
        ⟨email, ""⟩ tokenEntropy2 t4).1 =
      .ok { message := "Login successful"
            token := token_urlsafe tokenEntropy2
            user := { id := toString st.nextId, name := nm, email := email } } := by
  have hs := signup_fresh_spec sha256Hex st ⟨nm, email, "", fos⟩ saltEntropy
    tokenEntropy1 t1 t2 t3 h
  constructor
  · rw [hs]
  · have newUser : UserDoc :=
      ⟨st.nextId, nm, email,
        token_hex saltEntropy ++ ":" ++ sha256Hex (token_hex saltEntropy ++ ""),
        fos, [], true, t1, t2⟩
    have hu : find_one_email
        ((signup sha256Hex st ⟨nm, email, "", fos⟩ saltEntropy tokenEntropy1 t1 t2 t3).2).users
        email =
        some ⟨st.nextId, nm, email,
          token_hex saltEntropy ++ ":" ++ sha256Hex (token_hex saltEntropy ++ ""),
          fos, [], true, t1, t2⟩ := by
      rw [hs]
      exact find_one_email_append st.users _ email h rfl
    have hsplit : pySplitColon
        (UserDoc.password_hash ⟨st.nextId, nm, email,
          token_hex saltEntropy ++ ":" ++ sha256Hex (token_hex saltEntropy ++ ""),
          fos, [], true, t1, t2⟩) =
        [token_hex saltEntropy, sha256Hex (token_hex saltEntropy ++ "")] :=
      pySplitColon_format _ _ (bytesToHexList_no_colon saltEntropy hbytes) (hsha _)
    have hv : verify_password sha256Hex ""
        (sha256Hex (token_hex saltEntropy ++ "")) (token_hex saltEntropy) = true := by
      simp [verify_password]
    rw [login_success_spec sha256Hex _ ⟨email, ""⟩ tokenEntropy2 t4 _ _ _ hu hsplit hv]

/-- Witness for claim C10 at a concrete request against the empty store. -/
theorem signup_then_login_empty_password_witness :
    (signup sampleSha emptyDB ⟨"Ada", "ada@example.com", "", none⟩ [] [] 1 2 3).1 =
      .ok { message := "Signup successful"
            token := token_urlsafe []
            user := { id := toString (0 : Nat), name := "Ada",
                      email := "ada@example.com" } } ∧
    (login sampleSha
        (signup sampleSha emptyDB ⟨"Ada", "ada@example.com", "", none⟩ [] [] 1 2 3).2
        ⟨"ada@example.com", ""⟩ [] 4).1 =
      .ok { message := "Login successful"
            token := token_urlsafe []
            user := { id := toString (0 : Nat), name := "Ada",
                      email := "ada@example.com" } } :=
  signup_then_login_empty_password sampleSha emptyDB "Ada" "ada@example.com"
    none [] [] [] 1 2 3 4
    (fun s => by rw [show sampleSha s = "ffff" from rfl]; decide)
    (by decide) (by decide)
